import Mathlib

/-!
Verification of the raster time-series aggregation pipeline of `src/app.py`
(Bangkok PM2.5 analysis app).

Shallow embedding conventions:
* Floating-point values of the source are modelled as rationals (`ℚ`);
  NaN / absent values are modelled as `none : Option ℚ`.
* A raster image is a function from the sampling scale (meters) to the
  grid of pixel values over the fixed Bangkok region; a masked/invalid
  pixel is `none`.
* Timestamps are seconds since the epoch (`Nat`); a calendar day is
  `time / 86400` (UTC, leap seconds ignored, exactly the granularity the
  source's date strings carry).
* The remote Earth Engine backend is modelled from the spec's backend
  contract (filter, per-image region reduction, temporal mean composite,
  combined region reduction); the source delegates these operations to
  the remote service.
-/

namespace BkkPM25

/-- Number of seconds in one calendar day. -/
def secondsPerDay : Nat := 86400

/-- `image.date().format('YYYY-MM-dd')` (src/app.py:255): the acquisition
time truncated to its calendar day. -/
def formatDay (t : Nat) : Nat := t / secondsPerDay

/-- `pd.to_datetime` applied to a `YYYY-MM-dd` string (src/app.py:273):
midnight of that day, as a timestamp. -/
def toDatetime (day : Nat) : Nat := day * secondsPerDay

/-- A satellite raster image: its acquisition time and, for each sampling
scale in meters, the pixel values of the selected band over the Bangkok
region (`none` = masked/invalid pixel). -/
structure Image where
  time : Nat
  pixelsAt : Nat → List (Option ℚ)

/-- A (filtered) image collection, in backend order. -/
abbrev Collection := List Image

/-- Modelled from the spec (§6 backend contract): `filterDate(start, end)`
keeps the images acquired in `[s, e)` (inclusive start, exclusive end,
the backing service's convention). Used at src/app.py:242. -/
def filterDate (coll : Collection) (s e : Nat) : Collection :=
  coll.filter (fun img => decide (s ≤ img.time) && decide (img.time < e))

/-- The valid (unmasked) pixels of a grid. -/
def validPixels (ps : List (Option ℚ)) : List ℚ := ps.filterMap id

/-- Arithmetic mean of a list of values; absent when the list is empty. -/
def listMean (vs : List ℚ) : Option ℚ :=
  if vs.isEmpty then none else some (vs.sum / vs.length)

/-- Population variance of a list of values; absent when the list is
empty. The backend's `stdDev` reducer is its square root; the square
root is irrational in general, and since presence/absence and every
claim below are unaffected, the variance stands in for it. -/
def popVar (vs : List ℚ) : Option ℚ :=
  if vs.isEmpty then none
  else some (((vs.map (fun v => (v - vs.sum / vs.length) ^ 2)).sum) / vs.length)

/-- Modelled from the spec (§4.2, §6): `reduceRegion` with the mean-only
reducer at the given scale — the mean over all valid pixels of the image
inside the region, absent when there are none. Used at src/app.py:248. -/
def reduceRegionMean (raster : Nat → List (Option ℚ)) (scaleMeters : Nat) : Option ℚ :=
  listMean (validPixels (raster scaleMeters))

/-- The feature produced for one image by `get_daily_mean`
(src/app.py:247): the day-formatted acquisition date and the regional
mean AOD (possibly absent). -/
structure Feature where
  date : Nat
  aod : Option ℚ

/-- `get_daily_mean(image)` (src/app.py:247): region reduction with the
mean reducer over the Bangkok bounds at scale 1000, paired with the
image's date formatted as `YYYY-MM-dd`. -/
def get_daily_mean (img : Image) : Feature :=
  { date := formatDay img.time, aod := reduceRegionMean img.pixelsAt 1000 }

/-- The loop at src/app.py:262-269: map `get_daily_mean` over the
collection and keep exactly the features whose `aod` is not `None`,
as (day, value) rows. -/
def df_list (coll : Collection) : List (Nat × ℚ) :=
  (coll.map get_daily_mean).filterMap (fun f => f.aod.map (fun v => (f.date, v)))

/-- `df.sort_values('Date')` (src/app.py:274): sort the rows ascending by
their timestamp. (The source uses pandas' default sort; the ascending
order is what it guarantees, and this model realizes it with an
insertion sort.) -/
def sort_values (rows : List (Nat × ℚ)) : List (Nat × ℚ) :=
  List.insertionSort (fun a b => a.1 ≤ b.1) rows

/-- The time-series build step (src/app.py:262-274): keep the present
values, parse the day strings into (midnight) timestamps, and sort
ascending by timestamp. -/
def buildTimeSeries (coll : Collection) : List (Nat × ℚ) :=
  sort_values ((df_list coll).map (fun r => (toDatetime r.1, r.2)))

/-- `df['AOD'].mean()` (src/app.py:306) over the series' values. -/
def summaryMean (rows : List (Nat × ℚ)) : Option ℚ :=
  listMean (rows.map Prod.snd)

/-- `df['AOD'].max()` (src/app.py:308) over the series' values. -/
def summaryMax (rows : List (Nat × ℚ)) : Option ℚ :=
  (rows.map Prod.snd).max?

/-- `df['AOD'].min()` (src/app.py:310) over the series' values. -/
def summaryMin (rows : List (Nat × ℚ)) : Option ℚ :=
  (rows.map Prod.snd).min?

/-- `df['AOD'].std()` (src/app.py:312): pandas sample standard deviation
with divisor n-1, which is NaN (absent) when the series has at most one
value. As with `popVar`, the (rational) sample variance stands in for
its square root: it is absent in exactly the same cases. -/
def summaryStd (rows : List (Nat × ℚ)) : Option ℚ :=
  let vs := rows.map Prod.snd
  if vs.length ≤ 1 then none
  else some (((vs.map (fun v => (v - vs.sum / vs.length) ^ 2)).sum) / ((vs.length : ℚ) - 1))

/-- Two-digit zero-padded decimal rendering. -/
def pad2 (n : Nat) : String := if n < 10 then "0" ++ toString n else toString n

/-- Civil calendar date (year, month, day) of a day count since
1970-01-01 (proleptic Gregorian). -/
def civilFromDays (days : Nat) : Nat × Nat × Nat :=
  let z := days + 719468
  let era := z / 146097
  let doe := z % 146097
  let yoe := (doe - doe / 1460 + doe / 36524 - doe / 146096) / 365
  let y := yoe + era * 400
  let doy := doe - (365 * yoe + yoe / 4 - yoe / 100)
  let mp := (5 * doy + 2) / 153
  let d := doy - (153 * mp + 2) / 5 + 1
  if mp < 10 then (y, mp + 3, d) else (y + 1, mp - 9, d)

/-- The `YYYY-MM-dd` rendering of a (midnight) timestamp, as pandas
writes the `Date` column to CSV. -/
def dateStr (t : Nat) : String :=
  let c := civilFromDays (t / secondsPerDay)
  toString c.1 ++ "-" ++ pad2 c.2.1 ++ "-" ++ pad2 c.2.2

/-- `df.to_csv(index=False)` (src/app.py:315): a `Date,AOD` header row
followed by one `date,value` row per sample, in series order. -/
def toCsv (rows : List (Nat × ℚ)) : String :=
  "Date,AOD\n" ++ String.join (rows.map (fun r => dateStr r.1 ++ "," ++ toString r.2 ++ "\n"))

/-- What the time-series section renders: the CSV offered by the
download button (when any), and whether the no-data warning is shown. -/
structure TimeSeriesSection where
  csv : Option String
  noDataWarning : Bool
deriving DecidableEq, Repr

/-- The `Generate AOD Time Series` handler (src/app.py:237-323): filter
the collection by date, build `df_list`; if it is non-empty, build the
sorted series and offer its CSV for download; otherwise show the
no-data warning (and offer no CSV at all). -/
def generateTimeSeries (coll : Collection) (s e : Nat) : TimeSeriesSection :=
  let rows := df_list (filterDate coll s e)
  if rows.isEmpty then { csv := none, noDataWarning := true }
  else
    { csv := some (toCsv (sort_values (rows.map (fun r => (toDatetime r.1, r.2)))))
      noDataWarning := false }

/-- The record returned by the combined mean/stdDev/minMax region
reduction (src/app.py:342-350); any entry may be absent. -/
structure StatisticsRecord where
  mean : Option ℚ
  stdDev : Option ℚ
  min : Option ℚ
  max : Option ℚ
deriving DecidableEq, Repr

/-- Modelled from the spec (§4.2): `reduceRegion` with the combined
mean/stdDev/minMax reducer at the given scale: all four statistics are
computed over the same valid pixels of the same raster. -/
def reduceRegionCombined (raster : Nat → List (Option ℚ)) (scaleMeters : Nat) : StatisticsRecord :=
  let vs := validPixels (raster scaleMeters)
  { mean := listMean vs, stdDev := popVar vs, min := vs.min?, max := vs.max? }

/-- Modelled from the spec (§4.2): `reduceRegion` with the stdDev-only
reducer (variance standing in for its square root, as in `popVar`). -/
def reduceRegionStdDev (raster : Nat → List (Option ℚ)) (scaleMeters : Nat) : Option ℚ :=
  popVar (validPixels (raster scaleMeters))

/-- Modelled from the spec (§4.2): `reduceRegion` with the min-only
reducer. -/
def reduceRegionMin (raster : Nat → List (Option ℚ)) (scaleMeters : Nat) : Option ℚ :=
  (validPixels (raster scaleMeters)).min?

/-- Modelled from the spec (§4.2): `reduceRegion` with the max-only
reducer. -/
def reduceRegionMax (raster : Nat → List (Option ℚ)) (scaleMeters : Nat) : Option ℚ :=
  (validPixels (raster scaleMeters)).max?

/-- Value of the temporal mean composite at pixel index `i` and the
given scale: the mean, over the collection, of that pixel's valid
values; absent when no image has a valid value there. -/
def compositeAt (coll : Collection) (scaleMeters i : Nat) : Option ℚ :=
  listMean (coll.filterMap (fun img => (img.pixelsAt scaleMeters).getD i none))

/-- Pixel-grid size of the collection at a scale (the composite covers
every pixel index any image provides). -/
def gridSize (coll : Collection) (scaleMeters : Nat) : Nat :=
  (coll.map (fun img => (img.pixelsAt scaleMeters).length)).foldr max 0

/-- Modelled from the spec (§6, glossary): `collection.mean()`
(src/app.py:340) — the temporal mean composite, a single synthetic
raster whose per-pixel value is the mean across all images in the
window, ignoring missing pixels per pixel. -/
def temporalMean (coll : Collection) : Nat → List (Option ℚ) :=
  fun scaleMeters => (List.range (gridSize coll scaleMeters)).map (compositeAt coll scaleMeters)

/-- The `Calculate AOD Statistics` handler (src/app.py:336-350): filter
the collection by date, take its temporal mean composite, and apply one
region reduction with the combined mean/stdDev/minMax reducer at scale
1000 over the Bangkok bounds. -/
def aodStatistics (coll : Collection) (s e : Nat) : StatisticsRecord :=
  reduceRegionCombined (temporalMean (filterDate coll s e)) 1000

/-- The outcome of the map-section layer blocks (src/app.py:153-226):
the layer names passed to `m.addLayer`, the sidebar success messages,
and the sidebar warnings, each in program order. -/
structure MapSection where
  layers : List String
  successes : List String
  warnings : List String
deriving DecidableEq, Repr

/-- The backend calls issued by the four layer blocks; `.error e` models
the block's `except Exception as e`. -/
structure BackendCalls where
  aod : Except String Unit
  aerosol : Except String Unit
  no2 : Except String Unit
  co : Except String Unit

/-- One `if show_x: try/except` layer block (e.g. src/app.py:153-169):
skipped when the checkbox is off; on success adds the layer and a
success message; on failure adds only a warning. -/
def layerBlock (shown : Bool) (call : Except String Unit)
    (layerName okMsg warnMsg : String) (acc : MapSection) : MapSection :=
  if shown then
    match call with
    | .ok _ =>
        { acc with layers := acc.layers ++ [layerName], successes := acc.successes ++ [okMsg] }
    | .error e =>
        { acc with warnings := acc.warnings ++ [warnMsg ++ e] }
  else acc

/-- The map section (src/app.py:153-226): the four independent layer
blocks, in source order. -/
def renderMapSection (show_aod show_aerosol_index show_no2 show_co : Bool)
    (b : BackendCalls) : MapSection :=
  let m0 : MapSection := { layers := [], successes := [], warnings := [] }
  let m1 := layerBlock show_aod b.aod "AOD (PM2.5 Proxy)"
    "✓ AOD layer added" "AOD data unavailable: " m0
  let m2 := layerBlock show_aerosol_index b.aerosol "Aerosol Index"
    "✓ Aerosol Index added" "Aerosol data unavailable: " m1
  let m3 := layerBlock show_no2 b.no2 "NO2 Concentration"
    "✓ NO2 layer added" "NO2 data unavailable: " m2
  layerBlock show_co b.co "CO Concentration"
    "✓ CO layer added" "CO data unavailable: " m3

/-- The four independently-toggled data layers of the map section
(src/app.py:120-123). -/
inductive DataLayer where
  | aod
  | aerosolIndex
  | no2
  | co

/-- The checkbox flag governing a layer's block (src/app.py:120-123). -/
def DataLayer.checkbox : DataLayer → Bool → Bool → Bool → Bool → Bool
  | .aod, sa, _, _, _ => sa
  | .aerosolIndex, _, si, _, _ => si
  | .no2, _, _, sn, _ => sn
  | .co, _, _, _, sc => sc

/-- The backend call a layer's block issues. -/
def DataLayer.backendCall : DataLayer → BackendCalls → Except String Unit
  | .aod, b => b.aod
  | .aerosolIndex, b => b.aerosol
  | .no2, b => b.no2
  | .co, b => b.co

/-- The name a layer's block passes to `m.addLayer` on success
(src/app.py:166, 185, 204, 223). -/
def DataLayer.mapName : DataLayer → String
  | .aod => "AOD (PM2.5 Proxy)"
  | .aerosolIndex => "Aerosol Index"
  | .no2 => "NO2 Concentration"
  | .co => "CO Concentration"

/-- The text a layer's block prefixes to the caught exception in its
sidebar warning (src/app.py:169, 188, 207, 226). -/
def DataLayer.warnText : DataLayer → String
  | .aod => "AOD data unavailable: "
  | .aerosolIndex => "Aerosol data unavailable: "
  | .no2 => "NO2 data unavailable: "
  | .co => "CO data unavailable: "

end BkkPM25

namespace BkkPM25

/-- A concrete image used by the witnesses: acquired 100 s after
midnight of day 0, regional mean AOD 3. -/
def demoImage : Image := { time := 100, pixelsAt := fun _ => [some 2, none, some 4] }

/-- A concrete one-image collection used by the witnesses. -/
def demoColl : Collection := [demoImage]

lemma demo_build : buildTimeSeries demoColl = [(0, 3)] := by
  simp [buildTimeSeries, df_list, get_daily_mean, reduceRegionMean, validPixels, listMean,
    sort_values, toDatetime, formatDay, demoColl, demoImage, secondsPerDay,
    List.insertionSort]
  norm_num

lemma filterDate_eq_nil_of_lt (coll : Collection) (s e : Nat) (h : e < s) :
    filterDate coll s e = [] := by
  simp only [filterDate, List.filter_eq_nil_iff]
  intro img _
  simp only [Bool.and_eq_true, decide_eq_true_eq, not_and]
  omega

lemma mem_buildTimeSeries (p : Nat × ℚ) (coll : Collection) :
    p ∈ buildTimeSeries coll ↔ p ∈ (df_list coll).map (fun r => (toDatetime r.1, r.2)) :=
  (List.perm_insertionSort _ _).mem_iff

lemma df_list_length (coll : Collection) :
    (df_list coll).length
      = (coll.filter (fun img => ((get_daily_mean img).aod).isSome)).length := by
  induction coll with
  | nil => rfl
  | cons img rest ih =>
    simp only [df_list, List.map_cons, List.filterMap_cons, List.filter_cons] at *
    cases h : (get_daily_mean img).aod <;> simp [h, ← List.filterMap_map, ih]

/-- Claim C1: for every date range with start at or before end, the built
time series is sorted ascending (non-decreasing) by timestamp. -/
theorem C1_build_sorted (coll : Collection) (s e : Nat) (h : s ≤ e) :
    List.Sorted (fun a b : Nat × ℚ => a.1 ≤ b.1) (buildTimeSeries (filterDate coll s e)) := by
  have tot : IsTotal (Nat × ℚ) (fun a b => a.1 ≤ b.1) := ⟨fun a b => Nat.le_total a.1 b.1⟩
  have tr : IsTrans (Nat × ℚ) (fun a b => a.1 ≤ b.1) := ⟨fun a b c hab hbc => le_trans hab hbc⟩
  exact List.sorted_insertionSort _ _

theorem C1_build_sorted_witness :
    (0 : Nat) ≤ 172800 ∧
      List.Sorted (fun a b : Nat × ℚ => a.1 ≤ b.1) (buildTimeSeries (filterDate demoColl 0 172800)) :=
  ⟨by decide, C1_build_sorted demoColl 0 172800 (by decide)⟩

end BkkPM25

namespace BkkPM25

/-- Claim C4: for a date range with start after end, the build step
returns an empty TimeSeries and the section renders the no-data
warning, not an error. -/
theorem C4_reversed_range_empty (coll : Collection) (s e : Nat) (h : e < s) :
    buildTimeSeries (filterDate coll s e) = [] ∧
      generateTimeSeries coll s e = { csv := none, noDataWarning := true } := by
  have hf : filterDate coll s e = [] := filterDate_eq_nil_of_lt coll s e h
  refine ⟨?_, ?_⟩
  · simp [buildTimeSeries, hf, df_list, sort_values]
  · simp [generateTimeSeries, hf, df_list]

theorem C4_reversed_range_empty_witness :
    (100 : Nat) < 200 ∧
      (buildTimeSeries (filterDate demoColl 200 100) = [] ∧
        generateTimeSeries demoColl 200 100 = { csv := none, noDataWarning := true }) :=
  ⟨by decide, C4_reversed_range_empty demoColl 200 100 (by decide)⟩

/-- Claim C5: every sample of the built time series carries a present
value coming from an image whose regional reduction was `some`, and the
series has exactly one sample per image with a present reduction —
absent reductions are discarded before assembly, never kept as zero or
turned into an error. -/
theorem C5_values_present (coll : Collection) :
    (∀ p ∈ buildTimeSeries coll, ∃ img ∈ coll,
        reduceRegionMean img.pixelsAt 1000 = some p.2 ∧ p.1 = toDatetime (formatDay img.time)) ∧
      (buildTimeSeries coll).length
        = (coll.filter (fun img => (reduceRegionMean img.pixelsAt 1000).isSome)).length := by
  constructor
  · intro p hp
    rw [mem_buildTimeSeries] at hp
    simp only [df_list, List.mem_map, List.mem_filterMap, Option.map_eq_some'] at hp
    obtain ⟨r, ⟨f, ⟨img, himg, hf⟩, v, hv, hrv⟩, hpr⟩ := hp
    refine ⟨img, himg, ?_, ?_⟩
    · subst hf hrv hpr
      simpa [get_daily_mean] using hv
    · subst hf hrv hpr
      simp [get_daily_mean]
  · have hperm := List.perm_insertionSort (fun a b : Nat × ℚ => a.1 ≤ b.1)
      ((df_list coll).map (fun r => (toDatetime r.1, r.2)))
    calc (buildTimeSeries coll).length
        = ((df_list coll).map (fun r => (toDatetime r.1, r.2))).length := hperm.length_eq
      _ = (df_list coll).length := List.length_map _ _
      _ = (coll.filter (fun img => (reduceRegionMean img.pixelsAt 1000).isSome)).length :=
          df_list_length coll

theorem C5_values_present_witness :
    ∃ img ∈ demoColl,
      reduceRegionMean img.pixelsAt 1000 = some (3 : ℚ) ∧ (0 : Nat) = toDatetime (formatDay img.time) := by
  have h := (C5_values_present demoColl).1 (0, 3)
  rw [demo_build] at h
  exact h (List.mem_singleton.mpr rfl)

/-- Claim C9: every timestamp of the built series is a midnight (a
multiple of 86400 seconds) obtained from a day-formatted date, and two
images acquired on the same calendar day produce features whose parsed
timestamps are exactly equal. -/
theorem C9_day_granularity (coll : Collection) :
    (∀ p ∈ buildTimeSeries coll, p.1 % secondsPerDay = 0 ∧
        ∃ img ∈ coll, p.1 = toDatetime (formatDay img.time)) ∧
      (∀ img1 ∈ coll, ∀ img2 ∈ coll,
        formatDay img1.time = formatDay img2.time →
          toDatetime (get_daily_mean img1).date = toDatetime (get_daily_mean img2).date) := by
  constructor
  · intro p hp
    rw [mem_buildTimeSeries] at hp
    simp only [df_list, List.mem_map, List.mem_filterMap, Option.map_eq_some'] at hp
    obtain ⟨r, ⟨f, ⟨img, himg, hf⟩, v, hv, hrv⟩, hpr⟩ := hp
    subst hf hrv hpr
    refine ⟨?_, img, himg, ?_⟩
    · simp [toDatetime, Nat.mul_mod_left]
    · simp [get_daily_mean]
  · intro img1 _ img2 _ hday
    simp [get_daily_mean, hday]

theorem C9_day_granularity_witness :
    (0 : Nat) % secondsPerDay = 0 ∧ ∃ img ∈ demoColl, (0 : Nat) = toDatetime (formatDay img.time) := by
  have h := (C9_day_granularity demoColl).1 (0, 3)
  rw [demo_build] at h
  exact h (List.mem_singleton.mpr rfl)

end BkkPM25

namespace BkkPM25

/-- Claim C10: on a time series with exactly one sample, the displayed
standard deviation (pandas sample std, divisor n-1) is absent, while
the displayed mean, max and min all equal the single value. -/
theorem C10_single_sample_std_absent (coll : Collection) (d : Nat) (v : ℚ)
    (h : buildTimeSeries coll = [(d, v)]) :
    summaryStd (buildTimeSeries coll) = none ∧
      summaryMean (buildTimeSeries coll) = some v ∧
      summaryMax (buildTimeSeries coll) = some v ∧
      summaryMin (buildTimeSeries coll) = some v := by
  rw [h]
  refine ⟨?_, ?_, ?_, ?_⟩
  · simp [summaryStd]
  · simp [summaryMean, listMean]
  · simp [summaryMax, List.max?]
  · simp [summaryMin, List.min?]

theorem C10_single_sample_std_absent_witness :
    buildTimeSeries demoColl = [((0 : Nat), (3 : ℚ))] ∧
      (summaryStd (buildTimeSeries demoColl) = none ∧
        summaryMean (buildTimeSeries demoColl) = some 3 ∧
        summaryMax (buildTimeSeries demoColl) = some 3 ∧
        summaryMin (buildTimeSeries demoColl) = some 3) :=
  ⟨demo_build, C10_single_sample_std_absent demoColl 0 3 demo_build⟩

/-- Claim C7: when the filtered collection has zero images, the
statistics step returns a record with every statistic absent (and, the
model being a total function, no error is raised). -/
theorem C7_empty_collection_stats_absent (coll : Collection) (s e : Nat)
    (h : filterDate coll s e = []) :
    aodStatistics coll s e = { mean := none, stdDev := none, min := none, max := none } := by
  simp [aodStatistics, h, reduceRegionCombined, temporalMean, gridSize, compositeAt,
    validPixels, listMean, popVar]

theorem C7_empty_collection_stats_absent_witness :
    filterDate demoColl 200 100 = [] ∧
      aodStatistics demoColl 200 100 = { mean := none, stdDev := none, min := none, max := none } :=
  ⟨filterDate_eq_nil_of_lt demoColl 200 100 (by decide),
    C7_empty_collection_stats_absent demoColl 200 100
      (filterDate_eq_nil_of_lt demoColl 200 100 (by decide))⟩

/-- Claim C2: the statistics step computes the temporal mean composite
of the date-filtered collection and applies one combined region
reduction at scale 1000 m; each of the four statistics equals the
corresponding single-statistic region reduction of that same composite
at that same scale. -/
theorem C2_aggregate_single_combined_reduction (coll : Collection) (s e : Nat) :
    aodStatistics coll s e =
      { mean := reduceRegionMean (temporalMean (filterDate coll s e)) 1000,
        stdDev := reduceRegionStdDev (temporalMean (filterDate coll s e)) 1000,
        min := reduceRegionMin (temporalMean (filterDate coll s e)) 1000,
        max := reduceRegionMax (temporalMean (filterDate coll s e)) 1000 } := rfl

end BkkPM25

namespace BkkPM25

lemma layerBlock_layers_mono {x : String} {shown : Bool} {call : Except String Unit}
    {n o w : String} {acc : MapSection} (hx : x ∈ acc.layers) :
    x ∈ (layerBlock shown call n o w acc).layers := by
  cases shown with
  | false => simpa [layerBlock] using hx
  | true => cases call <;> simp [layerBlock, hx]

lemma layerBlock_warnings_mono {x : String} {shown : Bool} {call : Except String Unit}
    {n o w : String} {acc : MapSection} (hx : x ∈ acc.warnings) :
    x ∈ (layerBlock shown call n o w acc).warnings := by
  cases shown with
  | false => simpa [layerBlock] using hx
  | true => cases call <;> simp [layerBlock, hx]

lemma layerBlock_added {n o w : String} {acc : MapSection} :
    n ∈ (layerBlock true (.ok ()) n o w acc).layers := by
  simp [layerBlock]

lemma layerBlock_warned {e n o w : String} {acc : MapSection} :
    (w ++ e) ∈ (layerBlock true (.error e) n o w acc).warnings := by
  simp [layerBlock]

/-- Claim C6: for every layer, whatever the flags and backend outcomes
of all the other layers — including any of them failing — if the layer
is active and its backend call succeeds, its result is still added to
the map; and if the layer is active and its backend call fails, the
failure is caught in that layer's own block and reported as that
layer's warning. One layer's failure never aborts the others. -/
theorem C6_layer_failure_isolated (sa si sn sc : Bool) (b : BackendCalls)
    (L : DataLayer) (e : String) :
    (L.checkbox sa si sn sc = true → L.backendCall b = .ok () →
        L.mapName ∈ (renderMapSection sa si sn sc b).layers) ∧
      (L.checkbox sa si sn sc = true → L.backendCall b = .error e →
        (L.warnText ++ e) ∈ (renderMapSection sa si sn sc b).warnings) := by
  obtain ⟨aodc, aerc, no2c, coc⟩ := b
  cases L with
  | aod =>
    constructor <;> intro hs hc <;>
      simp only [DataLayer.checkbox] at hs <;>
      simp only [DataLayer.backendCall] at hc <;>
      subst hs <;> subst hc <;>
      dsimp only [renderMapSection, DataLayer.mapName, DataLayer.warnText]
    · exact layerBlock_layers_mono (layerBlock_layers_mono (layerBlock_layers_mono
        layerBlock_added))
    · exact layerBlock_warnings_mono (layerBlock_warnings_mono (layerBlock_warnings_mono
        layerBlock_warned))
  | aerosolIndex =>
    constructor <;> intro hs hc <;>
      simp only [DataLayer.checkbox] at hs <;>
      simp only [DataLayer.backendCall] at hc <;>
      subst hs <;> subst hc <;>
      dsimp only [renderMapSection, DataLayer.mapName, DataLayer.warnText]
    · exact layerBlock_layers_mono (layerBlock_layers_mono layerBlock_added)
    · exact layerBlock_warnings_mono (layerBlock_warnings_mono layerBlock_warned)
  | no2 =>
    constructor <;> intro hs hc <;>
      simp only [DataLayer.checkbox] at hs <;>
      simp only [DataLayer.backendCall] at hc <;>
      subst hs <;> subst hc <;>
      dsimp only [renderMapSection, DataLayer.mapName, DataLayer.warnText]
    · exact layerBlock_layers_mono layerBlock_added
    · exact layerBlock_warnings_mono layerBlock_warned
  | co =>
    constructor <;> intro hs hc <;>
      simp only [DataLayer.checkbox] at hs <;>
      simp only [DataLayer.backendCall] at hc <;>
      subst hs <;> subst hc <;>
      dsimp only [renderMapSection, DataLayer.mapName, DataLayer.warnText]
    · exact layerBlock_added
    · exact layerBlock_warned

/-- The backend outcomes of the spec's two-layer scenario: the AOD call
fails, the other calls succeed. -/
def demoCalls : BackendCalls :=
  { aod := .error "timeout", aerosol := .ok (), no2 := .ok (), co := .ok () }

theorem C6_layer_failure_isolated_witness :
    "NO2 Concentration" ∈ (renderMapSection true false true false demoCalls).layers ∧
      ("AOD data unavailable: " ++ "timeout")
        ∈ (renderMapSection true false true false demoCalls).warnings :=
  ⟨(C6_layer_failure_isolated true false true false demoCalls .no2 "timeout").1 rfl rfl,
    (C6_layer_failure_isolated true false true false demoCalls .aod "timeout").2 rfl rfl⟩

/-- Claim C8 counterexample: for a date range with zero matching images
the section produces no CSV at all (the download button is never
rendered), rather than a header-only `Date,AOD` file. -/
theorem C8_no_csv_counterexample :
    (generateTimeSeries [] 0 secondsPerDay).csv = none ∧
      ¬ (generateTimeSeries [] 0 secondsPerDay).csv = some "Date,AOD\n" := by
  refine ⟨rfl, ?_⟩
  intro hcontra
  simp [generateTimeSeries, filterDate, df_list] at hcontra

/-- Claim C8 (amended): when the filtered rows are empty, the section
shows the no-data warning and offers no CSV download; the header-only
file is never produced because the export branch is not reached. -/
theorem C8_empty_series_no_export (coll : Collection) (s e : Nat)
    (h : df_list (filterDate coll s e) = []) :
    generateTimeSeries coll s e = { csv := none, noDataWarning := true } := by
  simp [generateTimeSeries, h]

theorem C8_empty_series_no_export_witness :
    df_list (filterDate demoColl 200 100) = [] ∧
      generateTimeSeries demoColl 200 100 = { csv := none, noDataWarning := true } := by
  have h : df_list (filterDate demoColl 200 100) = [] := by
    rw [filterDate_eq_nil_of_lt demoColl 200 100 (by decide)]
    rfl
  exact ⟨h, C8_empty_series_no_export demoColl 200 100 h⟩

end BkkPM25
